import Mathlib

/-! Verification of the transfer engine of the website backup manager
(`backup_manager.py`, `cloud_storage.py`, `time_utils.py`).

The Python sources are shallowly embedded as executable Lean functions.
External effects (network listings, file fetches, HTTP responses, the clock)
are passed in as explicit data, so each embedded function is a pure function
of the program state plus the outcomes of its external calls, mirroring the
source control flow line by line.
-/

/-! Python-style helpers -/

/-- Truthiness of an optional string, as Python evaluates `if self.x:` for a
string-or-None attribute: `None` and the empty string are falsy. -/
def pyTruthy : Option String → Bool
  | none => false
  | some s => !s.isEmpty

/-- ASCII lowering of a string, modelling Python `str.lower()` on the ASCII
error messages produced by the FTP connect path. -/
def pyLower (s : String) : String := ⟨s.data.map Char.toLower⟩

/-- Does `needle` occur at the head of `hay`? Helper for the embedding of the
Python substring test `needle in hay`. -/
def charsStart : List Char → List Char → Bool
  | [], _ => true
  | _ :: _, [] => false
  | a :: as, b :: bs => a == b && charsStart as bs

/-- Does `needle` occur contiguously anywhere in `hay`? Embedding of the
Python substring test `needle in hay`. -/
def charsContain : List Char → List Char → Bool
  | needle, [] => needle.isEmpty
  | needle, b :: bs => charsStart needle (b :: bs) || charsContain needle bs

/-- Python `needle in hay` on strings. -/
def pyIn (needle hay : String) : Bool := charsContain needle.data hay.data

/-! C1: recursive download walkers (`download_directory`, SSH and FTP)

A remote tree is modelled with the outcomes of the external calls baked in:
each file node records its size and whether `sftp.get` / `RETR` succeeds,
each directory node records whether its listing call(s) succeed.  Mutual
inductives (tree/forest) are used instead of a nested `List` field so that
all recursions are structural. -/

mutual
/-- A node of a remote tree as seen by `SSHBackupManager.download_directory`:
a file carries its listed size and whether `sftp.get` succeeds for it; a
directory carries whether `sftp.listdir_attr` succeeds, plus its children. -/
inductive RTree where
  | file (size : Nat) (fetchOk : Bool)
  | dir (listingOk : Bool) (children : RForest)

/-- A sequence of sibling nodes of an `RTree`. -/
inductive RForest where
  | nil
  | cons (head : RTree) (tail : RForest)
end

mutual
/-- Embedding of `SSHBackupManager.download_directory`
(`backup_manager.py` lines 79-124) applied to one item of a listing.
A file item mirrors the loop body's file branch: on success `total_files`
gains 1 and `total_bytes` gains `item.st_size`; a failing `sftp.get` is
caught by the per-item handler, contributes nothing, and the walk continues.
A directory item mirrors the recursive call: a failing `listdir_attr`
returns `(0, 0)` (lines 90-96), otherwise the children are walked. -/
def ssh_download_directory : RTree → Nat × Nat
  | .file size fetchOk => if fetchOk then (1, size) else (0, 0)
  | .dir listingOk children =>
      if listingOk then ssh_download_forest children else (0, 0)

/-- The `for item in items` loop of `SSHBackupManager.download_directory`:
per-item results are accumulated into `(total_files, total_bytes)`. -/
def ssh_download_forest : RForest → Nat × Nat
  | .nil => (0, 0)
  | .cons t ts =>
      let r := ssh_download_directory t
      let rest := ssh_download_forest ts
      (r.1 + rest.1, r.2 + rest.2)
end

mutual
/-- Specification-side list of the sizes of the files of an `RTree` node that
are actually fetched by a run: a file is fetched when its own fetch succeeds,
and the files below a directory are fetched only when that directory's
listing succeeds. Listed in walk order. -/
def sshFetchedSizes : RTree → List Nat
  | .file size fetchOk => if fetchOk then [size] else []
  | .dir listingOk children =>
      if listingOk then sshFetchedSizesF children else []

/-- Forest version of `sshFetchedSizes`. -/
def sshFetchedSizesF : RForest → List Nat
  | .nil => []
  | .cons t ts => sshFetchedSizes t ++ sshFetchedSizesF ts
end

mutual
/-- A node of a remote tree as seen by `FTPBackupManager.download_directory`:
a directory carries the outcomes of its three possible listing calls
(`mlsd`, the `cwd` needed for the `LIST` fallback, and `retrlines LIST`). -/
inductive FTree where
  | file (size : Nat) (fetchOk : Bool)
  | dir (mlsdOk cwdOk listOk : Bool) (children : FForest)

/-- A sequence of sibling nodes of an `FTree`. -/
inductive FForest where
  | nil
  | cons (head : FTree) (tail : FForest)
end

mutual
/-- Embedding of `FTPBackupManager.download_directory`
(`backup_manager.py` lines 383-478) applied to one item. Listing prefers
`mlsd`; on its failure the `LIST` fallback needs a successful `cwd`
(line 418-421, failure returns `(0, 0)`) and a successful `retrlines LIST`
(lines 424-433, failure returns `(0, 0)`). A file item that fails to
download is caught by the per-item handler and contributes nothing. -/
def ftp_download_directory : FTree → Nat × Nat
  | .file size fetchOk => if fetchOk then (1, size) else (0, 0)
  | .dir mlsdOk cwdOk listOk children =>
      if mlsdOk then ftp_download_forest children
      else if cwdOk then
        (if listOk then ftp_download_forest children else (0, 0))
      else (0, 0)

/-- The `for filename, is_dir in items` loop of
`FTPBackupManager.download_directory`. -/
def ftp_download_forest : FForest → Nat × Nat
  | .nil => (0, 0)
  | .cons t ts =>
      let r := ftp_download_directory t
      let rest := ftp_download_forest ts
      (r.1 + rest.1, r.2 + rest.2)
end

/-- A directory of an `FTree` is listed when `mlsd` succeeds or the
`cwd` + `LIST` fallback succeeds. -/
def ftpListed (mlsdOk cwdOk listOk : Bool) : Bool := mlsdOk || (cwdOk && listOk)

mutual
/-- Specification-side list of the sizes of the files of an `FTree` node that
a run actually downloads, in walk order. -/
def ftpFetchedSizes : FTree → List Nat
  | .file size fetchOk => if fetchOk then [size] else []
  | .dir mlsdOk cwdOk listOk children =>
      if ftpListed mlsdOk cwdOk listOk then ftpFetchedSizesF children else []

/-- Forest version of `ftpFetchedSizes`. -/
def ftpFetchedSizesF : FForest → List Nat
  | .nil => []
  | .cons t ts => ftpFetchedSizes t ++ ftpFetchedSizesF ts
end

/-! C2: `FTPBackupManager.connect` (TLS-first with guarded fallback) -/

/-- The mandatory-TLS marker substrings tested by `FTPBackupManager.connect`
(`backup_manager.py` line 199). -/
def mandatoryTLSMarkers : List String := ["421", "tls", "ssl", "secure", "cleartext"]

/-- Embedding of the marker test
`any(x in message.lower() for x in ['421', 'tls', 'ssl', 'secure', 'cleartext'])`. -/
def requiresTLS (message : String) : Bool :=
  mandatoryTLSMarkers.any fun x => pyIn x (pyLower message)

/-- Embedding of `FTPBackupManager.connect` (`backup_manager.py` lines
186-205). The outcomes of the two connection helpers are passed in as data:
`ftpsResult` is what `_connect_ftps()` returns, `plainResult` is what
`_connect_plain_ftp()` would return. The embedding returns the connect
result together with the number of times each helper was invoked
(`_connect_ftps` count, `_connect_plain_ftp` count). -/
def ftp_connect (ftpsResult plainResult : Bool × String) :
    (Bool × String) × Nat × Nat :=
  if ftpsResult.1 then (ftpsResult, 1, 0)
  else if requiresTLS ftpsResult.2 then
    ((false, "FTPS bağlantısı başarısız: " ++ ftpsResult.2), 1, 0)
  else (plainResult, 1, 1)

/-! C3: `CloudStorageBase.ensure_valid_token` -/

/-- The token fields of a `CloudStorageBase` instance. The expiry is modelled
as an absolute timestamp in seconds (`none` = unset), matching
`token_expiry`. -/
structure TokenState where
  access_token : Option String
  refresh_token : Option String
  token_expiry : Option Nat
deriving DecidableEq

/-- Embedding of `CloudStorageBase.is_token_expired` (`cloud_storage.py`
lines 35-40): true when `token_expiry` is unset, or when
`datetime.utcnow() >= token_expiry`. -/
def is_token_expired (now : Nat) (st : TokenState) : Bool :=
  match st.token_expiry with
  | none => true
  | some e => e ≤ now

/-- Embedding of the provider `refresh_access_token` implementations
(`cloud_storage.py` lines 109-127, 242-263, 405-425): the refresh call's
response is passed in as data (`newAccess`, `newExp`, and for the provider
that rotates it, `newRefresh = some r`; `newRefresh = none` models both a
non-rotating provider and an absent `refresh_token` key). The stored
`access_token` and `token_expiry` are overwritten in place; `refresh_token`
is overwritten only when the response carries one. -/
def refresh_access_token (st : TokenState)
    (newAccess : String) (newRefresh : Option String) (newExp : Nat) : TokenState :=
  { access_token := some newAccess
    refresh_token := match newRefresh with
      | some r => some r
      | none => st.refresh_token
    token_expiry := some newExp }

/-- Embedding of `CloudStorageBase.ensure_valid_token` (`cloud_storage.py`
lines 51-53): `if self.is_token_expired() and self.refresh_token:
self.refresh_access_token()`. Returns the resulting state and the number of
provider refresh calls issued. -/
def ensure_valid_token (now : Nat) (st : TokenState)
    (newAccess : String) (newRefresh : Option String) (newExp : Nat) :
    TokenState × Nat :=
  if is_token_expired now st && pyTruthy st.refresh_token then
    (refresh_access_token st newAccess newRefresh newExp, 1)
  else (st, 0)

/-! C4, C5, C10: chunked upload loops -/

/-- Covered byte positions of a list of `(offset, length)` ranges, in order:
the concatenation of `[offset, offset + length)` for each range. The
partition property of a chunked upload is `coveredBytes rs = List.range S`:
every byte position below the file size is covered exactly once, in order,
with no gaps and no overlaps. -/
def coveredBytes (rs : List (Nat × Nat)) : List Nat :=
  rs.flatMap fun r => (List.range r.2).map (r.1 + ·)

/-- Outcome of the OneDrive chunked-PUT loop. -/
inductive ODOutcome where
  /-- Some chunk was answered with a status other than 200/201/202;
  `raise_for_status()` raised. -/
  | raised
  /-- The `while offset < file_size` loop ran to completion without any
  200/201 answer; the function falls through and returns `None`. -/
  | exhausted
  /-- Some chunk was answered 200/201; the function returns
  `result.get('id')`. -/
  | completed (rid : Option String)
deriving DecidableEq

/-- Embedding of the chunk loop of `OneDriveManager._upload_large_file`
(`cloud_storage.py` lines 332-355). `resp k` is the HTTP status answering
the `k`-th chunked PUT; `rid` is the `id` carried by a 200/201 response
body. Each iteration reads `min C (S - offset)` bytes (`f.read(chunk_size)`
at position `offset`), sends the range `[offset, offset + len)`, and on a
202 advances `offset` by the chunk length. `fuel` bounds the number of
iterations; the callers below supply fuel exceeding the iteration count.
Returns the list of byte ranges sent and the outcome. -/
def od_loop (S C : Nat) (resp : Nat → Nat) (rid : Option String) :
    Nat → Nat → Nat → List (Nat × Nat) × ODOutcome
  | 0, _, _ => ([], .exhausted)
  | fuel + 1, offset, k =>
    if offset < S then
      let len := min C (S - offset)
      let r := resp k
      if r == 200 || r == 201 then ([(offset, len)], .completed rid)
      else if r == 202 then
        let rest := od_loop S C resp rid fuel (offset + len) (k + 1)
        ((offset, len) :: rest.1, rest.2)
      else ([(offset, len)], .raised)
    else ([], .exhausted)

/-- The chunked-PUT phase of `OneDriveManager._upload_large_file` with chunk
size `C`, starting at offset 0. The loop executes at most `S / C + 1`
iterations when `0 < C`, so the supplied fuel is never exhausted. -/
def od_upload (S C : Nat) (resp : Nat → Nat) (rid : Option String) :
    List (Nat × Nat) × ODOutcome :=
  od_loop S C resp rid (S / C + 2) 0 0

/-- The source's chunk size: `chunk_size = 10 * 1024 * 1024`
(`cloud_storage.py` line 333). -/
def onedrive_chunk_size : Nat := 10 * 1024 * 1024

/-- `OneDriveManager._upload_large_file` with the source's 10MB chunk size. -/
def onedrive_upload_large (S : Nat) (resp : Nat → Nat) (rid : Option String) :
    List (Nat × Nat) × ODOutcome :=
  od_upload S onedrive_chunk_size resp rid

/-- One Dropbox API call issued by `DropboxManager._upload_large_file`:
`upload_session/start`, `upload_session/append_v2`, or
`upload_session/finish` (which also commits the destination path). Each
carries the byte count of the chunk in its body, and append/finish carry the
cursor offset. -/
inductive DbxCall where
  | start (size : Nat)
  | append (offset size : Nat)
  | finish (offset size : Nat) (path : String)
deriving DecidableEq

/-- The `while offset < file_size` loop of
`DropboxManager._upload_large_file` (`cloud_storage.py` lines 507-549):
each iteration reads `min C (S - offset)` bytes; if
`offset + len >= file_size` the chunk is sent through
`upload_session/finish` together with the commit path and the function
returns, otherwise it is sent through `upload_session/append_v2` and
`offset` advances. `fuel` bounds the iterations; the caller below supplies
fuel exceeding the iteration count. -/
def dbx_loop (S C : Nat) (dest : String) : Nat → Nat → List DbxCall
  | 0, _ => []
  | fuel + 1, offset =>
    if offset < S then
      let len := min C (S - offset)
      if S ≤ offset + len then [.finish offset len dest]
      else .append offset len :: dbx_loop S C dest fuel (offset + len)
    else []

/-- Embedding of `DropboxManager._upload_large_file` (`cloud_storage.py`
lines 487-551) with file size `S`, chunk size `C` and commit path `dest`:
`upload_session/start` carries the first `min C S` bytes, then the loop
appends/finishes the rest. Returns the list of API calls issued. -/
def dropbox_upload_large (S C : Nat) (dest : String) : List DbxCall :=
  let c1 := min C S
  DbxCall.start c1 :: dbx_loop S C dest (S / C + 2) c1

/-- The source's chunk size: `chunk_size = 50 * 1024 * 1024`
(`cloud_storage.py` line 488). -/
def dropbox_chunk_size : Nat := 50 * 1024 * 1024

/-- Byte range carried by one Dropbox upload call. -/
def callRange : DbxCall → Nat × Nat
  | .start n => (0, n)
  | .append o n => (o, n)
  | .finish o n _ => (o, n)

/-- Is a `DbxCall` a `start` call? -/
def isStartCall : DbxCall → Bool
  | .start _ => true
  | _ => false

/-- Is a `DbxCall` an `append_v2` call? -/
def isAppendCall : DbxCall → Bool
  | .append _ _ => true
  | _ => false

/-- Is a `DbxCall` a `finish` call? -/
def isFinishCall : DbxCall → Bool
  | .finish _ _ _ => true
  | _ => false

/-! C8: snapshot naming (`get_now().strftime` and the backup dir) -/

/-- A wall-clock instant as returned by `get_now()` (`time_utils.py` lines
48-71): a timezone-aware civil datetime. Only the displayed civil fields
matter for the snapshot name; the sub-second part is carried so that
"more than one second apart" can be stated exactly. -/
structure PyDateTime where
  year : Nat
  month : Nat
  day : Nat
  hour : Nat
  minute : Nat
  second : Nat
  microsecond : Nat
deriving DecidableEq

/-- Field bounds of a real `datetime` value in the years covered by the
4-digit `%Y` directive. -/
def PyDateTime.Valid (t : PyDateTime) : Prop :=
  1000 ≤ t.year ∧ t.year ≤ 9999 ∧ 1 ≤ t.month ∧ t.month ≤ 12 ∧
  1 ≤ t.day ∧ t.day ≤ 31 ∧ t.hour ≤ 23 ∧ t.minute ≤ 59 ∧ t.second ≤ 59 ∧
  t.microsecond < 1000000

instance (t : PyDateTime) : Decidable t.Valid := by
  unfold PyDateTime.Valid; infer_instance

/-- The decimal digit character for `n % 10`-style digits. -/
def digitChar (n : Nat) : Char := Char.ofNat (48 + n)

/-- Two-character zero-padded decimal rendering, as `%m`, `%d`, `%H`, `%M`,
`%S` produce for their in-range values. -/
def pad2C (n : Nat) : List Char := [digitChar (n / 10), digitChar (n % 10)]

/-- Four-character decimal rendering, as `%Y` produces for 4-digit years. -/
def pad4C (n : Nat) : List Char :=
  [digitChar (n / 1000), digitChar (n / 100 % 10),
   digitChar (n / 10 % 10), digitChar (n % 10)]

/-- Character sequence of `t.strftime('%Y%m%d_%H%M%S')`. -/
def strftimeChars (t : PyDateTime) : List Char :=
  pad4C t.year ++ pad2C t.month ++ pad2C t.day ++ ['_'] ++
  pad2C t.hour ++ pad2C t.minute ++ pad2C t.second

/-- Embedding of `get_now().strftime('%Y%m%d_%H%M%S')` (`backup_manager.py`
lines 148 and 506). -/
def strftime_timestamp (t : PyDateTime) : String := ⟨strftimeChars t⟩

/-- Embedding of `os.path.join(a, b)` for POSIX paths as used here: a
separator is inserted unless `a` is empty or already ends with one. -/
def os_path_join (a b : String) : String :=
  if a.isEmpty then b
  else if a.back = '/' then a ++ b
  else a ++ "/" ++ b

/-- The snapshot directory name built by both `backup` methods
(`backup_manager.py` lines 147-149 and 505-507):
`os.path.join(local_backup_path, 'backup_' + timestamp)`. -/
def backup_dir_name (local_backup_path : String) (t : PyDateTime) : String :=
  os_path_join local_backup_path ("backup_" ++ strftime_timestamp t)

/-- Days elapsed since the era origin 0000-03-01 for a civil date, by the
standard shifted-era formula. Used only to give civil datetimes an absolute
time scale; for years ≥ 1000 no subtraction underflows. -/
def days_from_civil (y m d : Nat) : Nat :=
  let y' := if m ≤ 2 then y - 1 else y
  let era := y' / 400
  let yoe := y' % 400
  let mp := if 2 < m then m - 3 else m + 9
  let doy := (153 * mp + 2) / 5 + d - 1
  let doe := yoe * 365 + yoe / 4 - yoe / 100 + doy
  era * 146097 + doe

/-- Whole seconds elapsed since the era origin at a civil instant. -/
def toEpochSeconds (t : PyDateTime) : Nat :=
  days_from_civil t.year t.month t.day * 86400 +
  t.hour * 3600 + t.minute * 60 + t.second

/-- Microseconds elapsed since the era origin at a civil instant; the time
scale on which "two runs started more than one second apart" is measured. -/
def toEpochMicros (t : PyDateTime) : Nat :=
  toEpochSeconds t * 1000000 + t.microsecond

/-! C6: the backup orchestrators (`backup`, SSH and FTP) -/

/-- Embedding of `SSHBackupManager.backup` (`backup_manager.py` lines
126-171). The outcomes of the external calls are data: `connectResult` is
what `self.connect()` returns, `remoteStatOk` is whether
`self.sftp.stat(remote_path)` succeeds, `localExists`/`localWritable` are
`os.path.exists`/`os.access(..., W_OK)` on the local root, `now` is the
`get_now()` value, and `dl` is what `download_directory` returns.  The
result is the returned 4-tuple paired with whether `self.disconnect()` was
invoked (the `finally` clause).  The `if file_count == 0` probe of lines
157-164 has no effect on the returned value and is omitted. -/
def ssh_backup (connectResult : Bool × String) (remoteStatOk : Bool)
    (localExists localWritable : Bool) (remote_path local_backup_path : String)
    (now : PyDateTime) (dl : Nat × Nat) :
    (Bool × String × Nat × Nat) × Bool :=
  if !connectResult.1 then ((false, connectResult.2, 0, 0), false)
  else
    let result :=
      if !remoteStatOk then
        (false, "Backup error: Remote path \x27" ++ remote_path ++
          "\x27 does not exist or is not accessible", 0, 0)
      else if localExists && !localWritable then
        (false, "Backup error: Local backup path \x27" ++ local_backup_path ++
          "\x27 is not writable", 0, 0)
      else (true, backup_dir_name local_backup_path now, dl.1, dl.2)
    (result, true)

/-- Embedding of `FTPBackupManager.backup` (`backup_manager.py` lines
480-524), with the same conventions as `ssh_backup`: `remoteListOk` is
whether `self.ftp.nlst(remote_path)` succeeds (its failure detail is
`nlstErr`). -/
def ftp_backup (connectResult : Bool × String) (remoteListOk : Bool)
    (nlstErr : String) (localExists localWritable : Bool)
    (remote_path local_backup_path : String) (now : PyDateTime)
    (dl : Nat × Nat) : (Bool × String × Nat × Nat) × Bool :=
  if !connectResult.1 then ((false, connectResult.2, 0, 0), false)
  else
    let result :=
      if !remoteListOk then
        (false, "Yedekleme hatası: Exception: Uzak yol \x27" ++ remote_path ++
          "\x27 mevcut değil veya erişim izni yok: " ++ nlstErr, 0, 0)
      else if localExists && !localWritable then
        (false, "Yedekleme hatası: Exception: Yerel yedekleme yolu \x27" ++
          local_backup_path ++ "\x27 yazılabilir değil", 0, 0)
      else (true, backup_dir_name local_backup_path now, dl.1, dl.2)
    (result, true)

/-! C7: `SSHBackupManager.connect` authentication selection -/

/-- The authentication method `SSHBackupManager.connect` settles on. -/
inductive SSHAuth where
  | keyfile
  | pwd
  | noAuth
deriving DecidableEq

/-- Embedding of the credential selection of `SSHBackupManager.connect`
(`backup_manager.py` lines 39-46): `if self.ssh_key_path and
os.path.exists(self.ssh_key_path): ... elif self.password: ... else:
return False, "No authentication method provided"`. `fileExists` is
`os.path.exists`; `netOutcome` is the outcome of the actual
`client.connect` + `open_sftp` calls (as mapped to a `(bool, message)` pair
by the surrounding try/except). Returns the connect result, whether a
network connection was attempted, and the method used. -/
def ssh_connect (ssh_key_path password : Option String)
    (fileExists : String → Bool) (netOutcome : Bool × String) :
    (Bool × String) × Bool × SSHAuth :=
  match ssh_key_path with
  | some k =>
    if !k.isEmpty && fileExists k then (netOutcome, true, .keyfile)
    else if pyTruthy password then (netOutcome, true, .pwd)
    else ((false, "No authentication method provided"), false, .noAuth)
  | none =>
    if pyTruthy password then (netOutcome, true, .pwd)
    else ((false, "No authentication method provided"), false, .noAuth)

/-! C9: `disconnect` (SSH and FTP) -/

/-- The connection handles of an `SSHBackupManager` (abstracted to presence:
`self.sftp` and `self.client` are live objects or `None`). -/
structure SSHState where
  sftp : Option Unit
  client : Option Unit
deriving DecidableEq

/-- An observable action taken by `SSHBackupManager.disconnect`. -/
inductive SSHCloseAct where
  | closeSftp
  | closeClient
deriving DecidableEq

/-- Embedding of `SSHBackupManager.disconnect` (`backup_manager.py` lines
57-70): each live handle is closed (failures of `.close()` are swallowed)
and set to `None`. Returns the new state and the actions performed. -/
def ssh_disconnect (s : SSHState) : SSHState × List SSHCloseAct :=
  let step1 : SSHState × List SSHCloseAct :=
    match s.sftp with
    | some _ => ({ s with sftp := none }, [.closeSftp])
    | none => (s, [])
  match step1.1.client with
  | some _ => ({ step1.1 with client := none }, step1.2 ++ [.closeClient])
  | none => (step1.1, step1.2)

/-- The connection state of an `FTPBackupManager`: the `self.ftp` handle and
the `self.use_tls` flag. -/
structure FTPState where
  ftp : Option Unit
  use_tls : Bool
deriving DecidableEq

/-- An observable action taken by `FTPBackupManager.disconnect` (`quit`,
falling back to `close`, is one teardown of the live handle). -/
inductive FTPCloseAct where
  | quitOrClose
deriving DecidableEq

/-- Embedding of `FTPBackupManager.disconnect` (`backup_manager.py` lines
317-328): when a handle is live it is torn down (exceptions swallowed),
`self.ftp` is set to `None` and `self.use_tls` to `False`; when no handle is
live nothing happens. -/
def ftp_disconnect (s : FTPState) : FTPState × List FTPCloseAct :=
  match s.ftp with
  | some _ => ({ ftp := none, use_tls := false }, [.quitOrClose])
  | none => (s, [])

/-! Theorems -/

mutual
/-- The SSH walker returns exactly the count and byte total of the files it
successfully fetches. -/
theorem ssh_download_eq_fetched (t : RTree) :
    ssh_download_directory t =
      ((sshFetchedSizes t).length, (sshFetchedSizes t).sum) := by
  cases t with
  | file size fetchOk =>
    cases fetchOk <;> simp [ssh_download_directory, sshFetchedSizes]
  | dir listingOk children =>
    cases listingOk <;>
      simp [ssh_download_directory, sshFetchedSizes,
        ssh_forest_eq_fetched children]

/-- Forest version of `ssh_download_eq_fetched`. -/
theorem ssh_forest_eq_fetched (l : RForest) :
    ssh_download_forest l =
      ((sshFetchedSizesF l).length, (sshFetchedSizesF l).sum) := by
  cases l with
  | nil => simp [ssh_download_forest, sshFetchedSizesF]
  | cons t ts =>
    simp [ssh_download_forest, sshFetchedSizesF,
      ssh_download_eq_fetched t, ssh_forest_eq_fetched ts]
end

mutual
/-- The FTP walker returns exactly the count and byte total of the files it
successfully downloads. -/
theorem ftp_download_eq_fetched (t : FTree) :
    ftp_download_directory t =
      ((ftpFetchedSizes t).length, (ftpFetchedSizes t).sum) := by
  cases t with
  | file size fetchOk =>
    cases fetchOk <;> simp [ftp_download_directory, ftpFetchedSizes]
  | dir mlsdOk cwdOk listOk children =>
    cases mlsdOk <;> cases cwdOk <;> cases listOk <;>
      simp [ftp_download_directory, ftpFetchedSizes, ftpListed,
        ftp_forest_eq_fetched children]

/-- Forest version of `ftp_download_eq_fetched`. -/
theorem ftp_forest_eq_fetched (l : FForest) :
    ftp_download_forest l =
      ((ftpFetchedSizesF l).length, (ftpFetchedSizesF l).sum) := by
  cases l with
  | nil => simp [ftp_download_forest, ftpFetchedSizesF]
  | cons t ts =>
    simp [ftp_download_forest, ftpFetchedSizesF,
      ftp_download_eq_fetched t, ftp_forest_eq_fetched ts]
end

/-- Claim C1: a recursive fetch run (SSH or FTP `download_directory`) returns
`file_count = n` and `total_bytes = s1 + ... + sn` where `f1..fn` (of sizes
`s1..sn`) are exactly the files it successfully fetches; a subtree whose
listing fails contributes zero to the aggregate, and a per-item failure is
absorbed so the walk continues with the next sibling. The embedded walkers
are total functions, so the run never raises and never aborts siblings. -/
theorem claim_C1_download_directory_aggregate :
    (∀ t : RTree, ssh_download_directory t =
      ((sshFetchedSizes t).length, (sshFetchedSizes t).sum)) ∧
    (∀ t : FTree, ftp_download_directory t =
      ((ftpFetchedSizes t).length, (ftpFetchedSizes t).sum)) :=
  ⟨ssh_download_eq_fetched, ftp_download_eq_fetched⟩

/-- Claim C2: `FTPBackupManager.connect` always attempts FTPS first (the
FTPS helper is invoked exactly once on every path); when FTPS succeeds its
result is returned and no plaintext attempt is made; when FTPS fails and the
lower-cased failure message contains one of the mandatory-TLS markers, the
plaintext fallback is never invoked and the connect result is a failure;
for every other FTPS failure the plaintext fallback is attempted exactly
once and its result is returned. -/
theorem claim_C2_ftp_connect_tls_fallback (fr pr : Bool × String) :
    (ftp_connect fr pr).2.1 = 1 ∧
    (fr.1 = true → ftp_connect fr pr = (fr, 1, 0)) ∧
    (fr.1 = false →
      (∃ m ∈ mandatoryTLSMarkers, pyIn m (pyLower fr.2) = true) →
      (ftp_connect fr pr).2.2 = 0 ∧ (ftp_connect fr pr).1.1 = false) ∧
    (fr.1 = false →
      (∀ m ∈ mandatoryTLSMarkers, pyIn m (pyLower fr.2) = false) →
      (ftp_connect fr pr).2.2 = 1 ∧ (ftp_connect fr pr).1 = pr) := by
  obtain ⟨fs, fm⟩ := fr
  have hiff : requiresTLS fm = true ↔
      ∃ m ∈ mandatoryTLSMarkers, pyIn m (pyLower fm) = true := by
    simp [requiresTLS, List.any_eq_true]
  cases fs with
  | true => simp [ftp_connect]
  | false =>
    by_cases h : requiresTLS fm = true
    · have hex := hiff.mp h
      refine ⟨by simp [ftp_connect, h], by simp, fun _ _ => by simp [ftp_connect, h], ?_⟩
      intro _ hall
      obtain ⟨m, hm, hpy⟩ := hex
      exact absurd (hall m hm) (by simp [hpy])
    · refine ⟨by simp [ftp_connect, h], by simp, ?_, fun _ _ => by simp [ftp_connect, h]⟩
      intro _ hex
      exact absurd (hiff.mpr hex) h

/-- Witness for C2: the FTPS failure message `421 TLS required` contains a
mandatory-TLS marker, so the plaintext fallback is not invoked and connect
fails. -/
theorem claim_C2_witness :
    (ftp_connect (false, "421 TLS required") (true, "ok")).2.2 = 0 ∧
    (ftp_connect (false, "421 TLS required") (true, "ok")).1.1 = false :=
  (claim_C2_ftp_connect_tls_fallback (false, "421 TLS required") (true, "ok")).2.2.1
    rfl ⟨"421", by decide, by decide⟩

/-- Claim C3 counterexample: the claim says a refresh is triggered if and
only if `now >= expiry`, but `ensure_valid_token` also requires a truthy
`refresh_token`. With an expired token (`expiry = 0`, `now = 5`) and no
refresh token, zero refresh calls are issued although `now >= expiry`. -/
theorem claim_C3_counterexample :
    (ensure_valid_token 5 ⟨some "tok", none, some 0⟩ "new" none 99).2 = 0 ∧
    is_token_expired 5 ⟨some "tok", none, some 0⟩ = true := by decide

/-- Claim C3, amended: `ensure_valid_token` triggers a provider refresh call
if and only if the token is expired (`now >= expiry`, a token with unset
expiry counting as expired) AND a refresh token is present; repeated calls
while the stored token is still valid issue zero refresh calls and leave the
state untouched; a refresh overwrites `access_token` and `token_expiry` in
place. -/
theorem claim_C3_ensure_valid_token_amended (now : Nat) (st : TokenState)
    (a : String) (r : Option String) (e : Nat) :
    ((ensure_valid_token now st a r e).2 = 1 ↔
      (is_token_expired now st = true ∧ pyTruthy st.refresh_token = true)) ∧
    (is_token_expired now st = true ↔
      (st.token_expiry = none ∨ ∃ ex, st.token_expiry = some ex ∧ ex ≤ now)) ∧
    (is_token_expired now st = false → ensure_valid_token now st a r e = (st, 0)) ∧
    (is_token_expired now st = true → pyTruthy st.refresh_token = true →
      (ensure_valid_token now st a r e).1.access_token = some a ∧
      (ensure_valid_token now st a r e).1.token_expiry = some e) := by
  refine ⟨?_, ?_, ?_, ?_⟩
  · by_cases h1 : is_token_expired now st = true <;>
      by_cases h2 : pyTruthy st.refresh_token = true <;>
        simp [ensure_valid_token, h1, h2]
  · cases hte : st.token_expiry with
    | none => simp [is_token_expired, hte]
    | some ex => simp [is_token_expired, hte]
  · intro h1; simp [ensure_valid_token, h1]
  · intro h1 h2
    simp [ensure_valid_token, h1, h2, refresh_access_token]

/-- Witness for the amended C3: an expired credential with a refresh token
present gets exactly the overwrite the amended claim describes. -/
theorem claim_C3_witness :
    (ensure_valid_token 5 ⟨some "a", some "r", some 0⟩ "na" none 100).1.access_token = some "na" ∧
    (ensure_valid_token 5 ⟨some "a", some "r", some 0⟩ "na" none 100).1.token_expiry = some 100 :=
  (claim_C3_ensure_valid_token_amended 5 ⟨some "a", some "r", some 0⟩ "na" none 100).2.2.2
    (by decide) (by decide)

/-- Claim C7: `SSHBackupManager.connect` picks key-file authentication
exactly when a key path is configured (truthy) and the file exists;
otherwise password authentication exactly when a password is set (truthy);
otherwise it fails with the no-authentication-method error without
attempting any network connection. -/
theorem claim_C7_ssh_auth_priority (kp pw : Option String)
    (fe : String → Bool) (net : Bool × String) :
    ((ssh_connect kp pw fe net).2.2 = SSHAuth.keyfile ↔
      ∃ k, kp = some k ∧ ¬k.isEmpty ∧ fe k = true) ∧
    ((ssh_connect kp pw fe net).2.2 = SSHAuth.pwd ↔
      (¬∃ k, kp = some k ∧ ¬k.isEmpty ∧ fe k = true) ∧ pyTruthy pw = true) ∧
    ((¬∃ k, kp = some k ∧ ¬k.isEmpty ∧ fe k = true) → pyTruthy pw = false →
      ssh_connect kp pw fe net =
        ((false, "No authentication method provided"), false, SSHAuth.noAuth)) := by
  cases kp with
  | none =>
    cases hpw : pyTruthy pw <;> simp [ssh_connect, hpw]
  | some k =>
    cases hke : k.isEmpty <;> cases hfe : fe k <;> cases hpw : pyTruthy pw <;>
      simp [ssh_connect, hke, hfe, hpw]

/-- Witness for C7: with no key path and no password, connect fails with the
no-authentication-method error and attempts no network connection. -/
theorem claim_C7_witness :
    ssh_connect none none (fun _ => true) (true, "ok") =
      ((false, "No authentication method provided"), false, SSHAuth.noAuth) :=
  (claim_C7_ssh_auth_priority none none (fun _ => true) (true, "ok")).2.2
    (by rintro ⟨k, hk, -⟩; exact Option.noConfusion hk) (by decide)

/-- Claim C9: for both protocol clients, `disconnect` is idempotent and safe
when not connected. With no live handle it performs no action and changes
nothing; a second call after any disconnect performs no action and leaves
the state of the first call; after any disconnect the handles are `None`. -/
theorem claim_C9_disconnect_idempotent (s : SSHState) (f : FTPState) :
    (s.sftp = none → s.client = none → ssh_disconnect s = (s, [])) ∧
    (ssh_disconnect (ssh_disconnect s).1 = ((ssh_disconnect s).1, [])) ∧
    ((ssh_disconnect s).1.sftp = none ∧ (ssh_disconnect s).1.client = none) ∧
    (f.ftp = none → ftp_disconnect f = (f, [])) ∧
    (ftp_disconnect (ftp_disconnect f).1 = ((ftp_disconnect f).1, [])) ∧
    ((ftp_disconnect f).1.ftp = none) := by
  obtain ⟨os, oc⟩ := s
  obtain ⟨of, tls⟩ := f
  cases os <;> cases oc <;> cases of <;>
    simp [ssh_disconnect, ftp_disconnect]

/-- Witness for C9: disconnecting a client with no live handles does
nothing. -/
theorem claim_C9_witness :
    ssh_disconnect ⟨none, none⟩ = (⟨none, none⟩, []) ∧
    ftp_disconnect ⟨none, true⟩ = (⟨none, true⟩, []) :=
  ⟨(claim_C9_disconnect_idempotent ⟨none, none⟩ ⟨none, true⟩).1 rfl rfl,
   (claim_C9_disconnect_idempotent ⟨none, none⟩ ⟨none, true⟩).2.2.2.1 rfl⟩

/-- Unfolding of `coveredBytes` on a cons, with the range in `range'` form. -/
theorem coveredBytes_cons (r : Nat × Nat) (rs : List (Nat × Nat)) :
    coveredBytes (r :: rs) = List.range' r.1 r.2 ++ coveredBytes rs := by
  simp [coveredBytes, List.range'_eq_map_range]

/-- When the server answers every chunk with 202, the OneDrive loop sends
ranges exactly covering `[offset, S)` and falls out of the loop. -/
theorem od_loop_all202 (S C : Nat) (resp : Nat → Nat) (rid : Option String)
    (h202 : ∀ k, resp k = 202) :
    ∀ fuel offset k, S ≤ offset + fuel * C →
      coveredBytes (od_loop S C resp rid fuel offset k).1 =
        List.range' offset (S - offset) ∧
      (od_loop S C resp rid fuel offset k).2 = ODOutcome.exhausted := by
  intro fuel
  induction fuel with
  | zero =>
    intro offset k h
    have hso : S - offset = 0 := by omega
    simp [od_loop, hso, coveredBytes]
  | succ n ih =>
    intro offset k h
    by_cases ho : offset < S
    · have hr := h202 k
      rw [od_loop]
      simp only [if_pos ho, hr]
      norm_num
      have hmul : (n + 1) * C = n * C + C := by ring
      have harith : S ≤ offset + min C (S - offset) + n * C := by omega
      obtain ⟨hcov, hout⟩ := ih (offset + min C (S - offset)) (k + 1) harith
      refine ⟨?_, hout⟩
      rw [coveredBytes_cons, hcov]
      have : S - (offset + min C (S - offset)) = S - offset - min C (S - offset) := by
        omega
      rw [this, List.range'_append_1]
      congr 1
      omega
    · have hso : S - offset = 0 := by omega
      rw [od_loop]
      simp [if_neg ho, hso, coveredBytes]

/-- The OneDrive loop reports a completed upload only if some chunk was
answered with status 200 or 201. -/
theorem od_loop_completed_needs_2xx (S C : Nat) (resp : Nat → Nat)
    (rid rid' : Option String) :
    ∀ fuel offset k,
      (od_loop S C resp rid fuel offset k).2 = ODOutcome.completed rid' →
      ∃ j, resp j = 200 ∨ resp j = 201 := by
  intro fuel
  induction fuel with
  | zero => intro offset k h; simp [od_loop] at h
  | succ n ih =>
    intro offset k h
    rw [od_loop] at h
    by_cases ho : offset < S
    · simp only [if_pos ho] at h
      by_cases h1 : (resp k == 200 || resp k == 201) = true
      · refine ⟨k, ?_⟩
        simpa using h1
      · rw [if_neg h1] at h
        by_cases h2 : (resp k == 202) = true
        · rw [if_pos h2] at h
          exact ih (offset + min C (S - offset)) (k + 1) h
        · rw [if_neg h2] at h
          simp at h
    · simp [if_neg ho] at h

/-- Fuel sufficiency: the fuel supplied by `od_upload` and
`dropbox_upload_large` exceeds the iteration count of their loops. -/
theorem fuel_sufficient (S C offset : Nat) (hC : 0 < C) :
    S ≤ offset + (S / C + 2) * C := by
  have h1 : S < (S / C + 1) * C := by
    calc S = C * (S / C) + S % C := (Nat.div_add_mod S C).symm
      _ < C * (S / C) + C := Nat.add_lt_add_left (Nat.mod_lt S hC) _
      _ = (S / C + 1) * C := by ring
  calc S ≤ (S / C + 1) * C := Nat.le_of_lt h1
    _ ≤ (S / C + 2) * C := Nat.mul_le_mul_right C (by omega)
    _ ≤ offset + (S / C + 2) * C := Nat.le_add_left _ _

/-- The Dropbox loop's calls carry byte ranges exactly covering
`[offset, S)`. -/
theorem dbx_loop_covers (S C : Nat) (dest : String) :
    ∀ fuel offset, S ≤ offset + fuel * C →
      coveredBytes ((dbx_loop S C dest fuel offset).map callRange) =
        List.range' offset (S - offset) := by
  intro fuel
  induction fuel with
  | zero =>
    intro offset h
    have hso : S - offset = 0 := by omega
    simp [dbx_loop, hso, coveredBytes]
  | succ n ih =>
    intro offset h
    by_cases ho : offset < S
    · rw [dbx_loop]
      simp only [if_pos ho]
      by_cases hl : S ≤ offset + min C (S - offset)
      · rw [if_pos hl]
        have hlen : min C (S - offset) = S - offset := by omega
        simp [coveredBytes, callRange, hlen, List.range'_eq_map_range]
      · rw [if_neg hl]
        have hmul : (n + 1) * C = n * C + C := by ring
        have harith : S ≤ offset + min C (S - offset) + n * C := by omega
        have hcov := ih (offset + min C (S - offset)) harith
        rw [List.map_cons]
        rw [coveredBytes_cons]
        simp only [callRange] at *
        rw [hcov]
        have : S - (offset + min C (S - offset)) = S - offset - min C (S - offset) := by
          omega
        rw [this, List.range'_append_1]
        congr 1
        omega
    · have hso : S - offset = 0 := by omega
      rw [dbx_loop]
      simp [if_neg ho, hso, coveredBytes]

/-- When entered below the file size, the Dropbox loop's last call is a
`finish` carrying the commit path. -/
theorem dbx_loop_last_finish (S C : Nat) (dest : String) :
    ∀ fuel offset, S ≤ offset + fuel * C → offset < S →
      ∃ o l, (dbx_loop S C dest fuel offset).getLast? =
        some (DbxCall.finish o l dest) := by
  intro fuel
  induction fuel with
  | zero => intro offset h ho; omega
  | succ n ih =>
    intro offset h ho
    rw [dbx_loop]
    simp only [if_pos ho]
    by_cases hl : S ≤ offset + min C (S - offset)
    · rw [if_pos hl]
      exact ⟨offset, min C (S - offset), rfl⟩
    · rw [if_neg hl]
      have hmul : (n + 1) * C = n * C + C := by ring
      have harith : S ≤ offset + min C (S - offset) + n * C := by omega
      obtain ⟨o, l, hlast⟩ := ih (offset + min C (S - offset)) harith (by omega)
      refine ⟨o, l, ?_⟩
      cases hrest : dbx_loop S C dest n (offset + min C (S - offset)) with
      | nil => rw [hrest] at hlast; simp at hlast
      | cons a as =>
        rw [hrest] at hlast
        rw [List.getLast?_cons_cons]
        exact hlast

/-- Claim C4: for a large-file upload of size `S` with chunk size `C`, the
byte ranges committed across all chunk calls exactly partition `[0, S)` —
no gaps, no overlaps — for both the OneDrive Content-Range chunked PUT loop
(run to completion, every chunk acknowledged with 202) and the Dropbox
start/append/finish loop; and in the cursor-session (Dropbox) loop the
final chunk call is the `finish` call that also commits the destination
path. The Dropbox conjuncts assume `C < S`, which holds at the only call
site: that path is entered for sizes above 150MB with 50MB chunks. -/
theorem claim_C4_upload_chunks_partition (S C : Nat) (dest : String)
    (rid : Option String) (hC : 0 < C) :
    coveredBytes (od_upload S C (fun _ => 202) rid).1 = List.range S ∧
    (C < S →
      coveredBytes ((dropbox_upload_large S C dest).map callRange) = List.range S ∧
      ∃ o l, (dropbox_upload_large S C dest).getLast? =
        some (DbxCall.finish o l dest)) := by
  constructor
  · have h := od_loop_all202 S C (fun _ => 202) rid (fun _ => rfl)
      (S / C + 2) 0 0 (fuel_sufficient S C 0 hC)
    simpa [od_upload, List.range_eq_range'] using h.1
  · intro hCS
    have hmin : min C S = C := Nat.min_eq_left (Nat.le_of_lt hCS)
    constructor
    · have hcov := dbx_loop_covers S C dest (S / C + 2) C (fuel_sufficient S C C hC)
      rw [dropbox_upload_large]
      simp only [hmin, List.map_cons]
      rw [coveredBytes_cons]
      simp only [callRange]
      rw [hcov]
      calc List.range' 0 C ++ List.range' C (S - C)
          = List.range' 0 C ++ List.range' (0 + C) (S - C) := by rw [Nat.zero_add]
        _ = List.range' 0 (S - C + C) := List.range'_append_1 0 C (S - C)
        _ = List.range S := by rw [List.range_eq_range']; congr 1; omega
    · obtain ⟨o, l, hl⟩ := dbx_loop_last_finish S C dest (S / C + 2) C
        (fuel_sufficient S C C hC) hCS
      refine ⟨o, l, ?_⟩
      rw [dropbox_upload_large]
      simp only [hmin]
      cases hrest : dbx_loop S C dest (S / C + 2) C with
      | nil => rw [hrest] at hl; simp at hl
      | cons a as =>
        rw [hrest] at hl
        rw [List.getLast?_cons_cons]
        exact hl

/-- Witness for C4 at `S = 5`, `C = 2`. -/
theorem claim_C4_witness :
    0 < 2 ∧ 2 < 5 ∧
    (coveredBytes (od_upload 5 2 (fun _ => 202) none).1 = List.range 5 ∧
     coveredBytes ((dropbox_upload_large 5 2 "/site.zip").map callRange) =
       List.range 5 ∧
     ∃ o l, (dropbox_upload_large 5 2 "/site.zip").getLast? =
       some (DbxCall.finish o l "/site.zip")) := by
  have h := claim_C4_upload_chunks_partition 5 2 "/site.zip" none (by decide)
  exact ⟨by decide, by decide, h.1, (h.2 (by decide)).1, (h.2 (by decide)).2⟩

/-- Claim C5: a 220MB file through the Dropbox large-file path with its 50MB
chunk size issues exactly one `start` carrying the first 50MB, then 3
`append` calls and 1 `finish` call; the `finish` carries the last 20MB
(20971520 bytes at offset 209715200) and the destination path. -/
theorem claim_C5_dropbox_220mb_chunks :
    dropbox_upload_large (220 * 1024 * 1024) dropbox_chunk_size "/backups/site.zip" =
      [DbxCall.start 52428800,
       DbxCall.append 52428800 52428800,
       DbxCall.append 104857600 52428800,
       DbxCall.append 157286400 52428800,
       DbxCall.finish 209715200 20971520 "/backups/site.zip"] ∧
    (dropbox_upload_large (220 * 1024 * 1024) dropbox_chunk_size
      "/backups/site.zip").countP isStartCall = 1 ∧
    (dropbox_upload_large (220 * 1024 * 1024) dropbox_chunk_size
      "/backups/site.zip").countP isAppendCall = 3 ∧
    (dropbox_upload_large (220 * 1024 * 1024) dropbox_chunk_size
      "/backups/site.zip").countP isFinishCall = 1 := by
  refine ⟨by decide, by decide, by decide, by decide⟩

/-- Claim C10: the OneDrive large-file loop returns a remote file id only
when some chunked PUT is answered 200 or 201; when every chunk (the final
one included) is answered 202 the loop runs to `offset = file_size` — all
of `[0, S)` is sent — and the function returns `None`, so the caller gets
no remote id although every byte was uploaded. -/
theorem claim_C10_onedrive_id_only_on_2xx (S : Nat) (resp : Nat → Nat)
    (rid rid' : Option String) :
    ((onedrive_upload_large S resp rid).2 = ODOutcome.completed rid' →
      ∃ k, resp k = 200 ∨ resp k = 201) ∧
    ((∀ k, resp k = 202) →
      (onedrive_upload_large S resp rid).2 = ODOutcome.exhausted ∧
      coveredBytes (onedrive_upload_large S resp rid).1 = List.range S) := by
  constructor
  · intro h
    exact od_loop_completed_needs_2xx S onedrive_chunk_size resp rid rid'
      (S / onedrive_chunk_size + 2) 0 0 h
  · intro h202
    have hfuel := fuel_sufficient S onedrive_chunk_size 0
      (by norm_num [onedrive_chunk_size])
    have h := od_loop_all202 S onedrive_chunk_size resp rid h202
      (S / onedrive_chunk_size + 2) 0 0 hfuel
    exact ⟨h.2, by simpa [onedrive_upload_large, od_upload,
      List.range_eq_range'] using h.1⟩

/-- Witness for C10: a 3-byte upload whose every chunk is answered 202 ends
with no remote id although the whole file was sent. -/
theorem claim_C10_witness :
    (onedrive_upload_large 3 (fun _ => 202) none).2 = ODOutcome.exhausted ∧
    coveredBytes (onedrive_upload_large 3 (fun _ => 202) none).1 = List.range 3 :=
  (claim_C10_onedrive_id_only_on_2xx 3 (fun _ => 202) none none).2 (fun _ => rfl)

/-- Claim C6: the backup orchestrators (SSH and FTP `backup`) are total —
they always return a 4-tuple, never letting an exception escape (the
embedded functions are total by construction, mirroring the
try/except/finally of the source); a connection failure yields
`(False, message, 0, 0)`; each pre-flight validation failure (unreachable
remote root, non-writable existing local root) yields
`(False, message, 0, 0)`; and `disconnect` is invoked on every exit path
that follows a successful connect, while the success path returns the
snapshot directory with the walk's counters. -/
theorem claim_C6_backup_result_and_disconnect
    (cr : Bool × String) (remoteOk : Bool) (nlstErr : String)
    (le lw : Bool) (rp lp : String) (now : PyDateTime) (dl : Nat × Nat) :
    (cr.1 = false →
      ssh_backup cr remoteOk le lw rp lp now dl = ((false, cr.2, 0, 0), false) ∧
      ftp_backup cr remoteOk nlstErr le lw rp lp now dl =
        ((false, cr.2, 0, 0), false)) ∧
    (cr.1 = true →
      (ssh_backup cr remoteOk le lw rp lp now dl).2 = true ∧
      (ftp_backup cr remoteOk nlstErr le lw rp lp now dl).2 = true) ∧
    (cr.1 = true → remoteOk = false →
      (∃ m, ssh_backup cr remoteOk le lw rp lp now dl = ((false, m, 0, 0), true)) ∧
      (∃ m, ftp_backup cr remoteOk nlstErr le lw rp lp now dl =
        ((false, m, 0, 0), true))) ∧
    (cr.1 = true → remoteOk = true → le = true → lw = false →
      (∃ m, ssh_backup cr remoteOk le lw rp lp now dl = ((false, m, 0, 0), true)) ∧
      (∃ m, ftp_backup cr remoteOk nlstErr le lw rp lp now dl =
        ((false, m, 0, 0), true))) ∧
    (cr.1 = true → remoteOk = true → (le = false ∨ lw = true) →
      ssh_backup cr remoteOk le lw rp lp now dl =
        ((true, backup_dir_name lp now, dl.1, dl.2), true) ∧
      ftp_backup cr remoteOk nlstErr le lw rp lp now dl =
        ((true, backup_dir_name lp now, dl.1, dl.2), true)) := by
  obtain ⟨cs, cm⟩ := cr
  cases cs <;> cases remoteOk <;> cases le <;> cases lw <;>
    simp [ssh_backup, ftp_backup]

/-- Witness for C6: a failed connect is propagated as
`(False, message, 0, 0)` with no disconnect call, and after a successful
connect with a failed remote-root probe the failure carries zero counters
and disconnect still runs. -/
theorem claim_C6_witness :
    (ssh_backup (false, "down") true true true "/r" "/l" ⟨2024, 1, 1, 0, 0, 0, 0⟩ (3, 9) =
      ((false, "down", 0, 0), false)) ∧
    (∃ m, ssh_backup (true, "ok") false true true "/r" "/l" ⟨2024, 1, 1, 0, 0, 0, 0⟩ (3, 9) =
      ((false, m, 0, 0), true)) :=
  ⟨((claim_C6_backup_result_and_disconnect (false, "down") true "e" true true
      "/r" "/l" ⟨2024, 1, 1, 0, 0, 0, 0⟩ (3, 9)).1 rfl).1,
   ((claim_C6_backup_result_and_disconnect (true, "ok") false "e" true true
      "/r" "/l" ⟨2024, 1, 1, 0, 0, 0, 0⟩ (3, 9)).2.2.1 rfl rfl).1⟩

/-- Decimal digit characters are injective on digits. -/
theorem digitChar_inj : ∀ a, a < 10 → ∀ b, b < 10 →
    digitChar a = digitChar b → a = b := by decide

/-- The `%Y%m%d_%H%M%S` rendering determines every civil field of a valid
datetime. -/
theorem strftime_fields_inj (t1 t2 : PyDateTime) (v1 : t1.Valid) (v2 : t2.Valid)
    (h : strftimeChars t1 = strftimeChars t2) :
    t1.year = t2.year ∧ t1.month = t2.month ∧ t1.day = t2.day ∧
    t1.hour = t2.hour ∧ t1.minute = t2.minute ∧ t1.second = t2.second := by
  obtain ⟨y1a, y1b, mo1a, mo1b, d1a, d1b, h1a, mi1a, s1a, us1⟩ := v1
  obtain ⟨y2a, y2b, mo2a, mo2b, d2a, d2b, h2a, mi2a, s2a, us2⟩ := v2
  simp only [strftimeChars, pad4C, pad2C, List.cons_append, List.nil_append,
    List.cons.injEq, and_true, true_and] at h
  obtain ⟨e1, e2, e3, e4, e5, e6, e7, e8, e9, e10, e11, e12, e13, e14⟩ := h
  refine ⟨?_, ?_, ?_, ?_, ?_, ?_⟩
  · have q1 := digitChar_inj _ (by omega) _ (by omega) e1
    have q2 := digitChar_inj _ (by omega) _ (by omega) e2
    have q3 := digitChar_inj _ (by omega) _ (by omega) e3
    have q4 := digitChar_inj _ (by omega) _ (by omega) e4
    omega
  · have q1 := digitChar_inj _ (by omega) _ (by omega) e5
    have q2 := digitChar_inj _ (by omega) _ (by omega) e6
    omega
  · have q1 := digitChar_inj _ (by omega) _ (by omega) e7
    have q2 := digitChar_inj _ (by omega) _ (by omega) e8
    omega
  · have q1 := digitChar_inj _ (by omega) _ (by omega) e9
    have q2 := digitChar_inj _ (by omega) _ (by omega) e10
    omega
  · have q1 := digitChar_inj _ (by omega) _ (by omega) e11
    have q2 := digitChar_inj _ (by omega) _ (by omega) e12
    omega
  · have q1 := digitChar_inj _ (by omega) _ (by omega) e13
    have q2 := digitChar_inj _ (by omega) _ (by omega) e14
    omega

/-- Claim C8: the snapshot directory is always named
`<local_backup_path>/backup_<YYYYMMDD_HHMMSS>` from the run's start time
(this is `backup_dir_name`, the name both orchestrators attach to a
successful run), and two runs against the same target whose start times
differ by more than one second — strictly more than 1000000 microseconds on
the absolute time scale — produce distinct snapshot directory names. Names
may collide only for runs starting within the same wall-clock second. -/
theorem claim_C8_snapshot_names_distinct (p : String) (t1 t2 : PyDateTime)
    (v1 : t1.Valid) (v2 : t2.Valid)
    (hgap : toEpochMicros t1 + 1000000 < toEpochMicros t2 ∨
            toEpochMicros t2 + 1000000 < toEpochMicros t1) :
    backup_dir_name p t1 ≠ backup_dir_name p t2 := by
  intro heq
  have hchars : strftimeChars t1 = strftimeChars t2 := by
    have hdata := congrArg String.data heq
    unfold backup_dir_name os_path_join at hdata
    by_cases hp0 : p.isEmpty
    · simp [hp0, strftime_timestamp] at hdata
      exact hdata
    · by_cases hps : p.back = '/'
      · simp [hp0, hps, strftime_timestamp] at hdata
        exact hdata
      · simp [hp0, hps, strftime_timestamp, List.append_assoc] at hdata
        exact hdata
  obtain ⟨ey, emo, ed, eh, emi, es⟩ := strftime_fields_inj t1 t2 v1 v2 hchars
  have hsec : toEpochSeconds t1 = toEpochSeconds t2 := by
    unfold toEpochSeconds days_from_civil
    rw [ey, emo, ed, eh, emi, es]
  obtain ⟨-, -, -, -, -, -, -, -, -, hus1⟩ := v1
  obtain ⟨-, -, -, -, -, -, -, -, -, hus2⟩ := v2
  unfold toEpochMicros at hgap
  rw [hsec] at hgap
  omega

/-- Witness for C8: two starts of the same target two seconds apart get
distinct snapshot directory names. -/
theorem claim_C8_witness :
    backup_dir_name "/backups" ⟨2024, 1, 26, 8, 30, 0, 0⟩ ≠
    backup_dir_name "/backups" ⟨2024, 1, 26, 8, 30, 2, 0⟩ :=
  claim_C8_snapshot_names_distinct "/backups" ⟨2024, 1, 26, 8, 30, 0, 0⟩
    ⟨2024, 1, 26, 8, 30, 2, 0⟩ (by decide) (by decide) (Or.inl (by decide))
